import Mathlib

/-!
Verification of the Voxa-Captions transcription pipeline.

This file shallowly embeds the core of the repository:
* `transcription_engine.py` — engine construction (`TranscriptionEngine.__init__`,
  `_find_whisper_executable`), transcription (`transcribe_audio`) and output
  parsing (`_parse_whisper_output` with its three extraction tiers), and
* `caption_generator_app.py` — the batch loop (`TranscriptionThread.run`).

External effects (subprocesses, the file system) are modelled by explicit
environment records and state records; Python exceptions are modelled by
`Except String`; Python floats arising in the parser are modelled by exact
rationals (the values involved are small integers scaled by 1000 or divided
once, far inside the range where binary64 arithmetic is exact enough for the
truncations performed).
-/

namespace Voxa

/-! ### Python string primitives

Python's `str.strip()` and `str.split()` (no argument) are modelled at the
character-list level: strip removes leading and trailing whitespace, split
breaks the string on maximal whitespace runs, never producing empty pieces. -/

/-- Whitespace set of Python `str.strip` / `str.split` (ASCII part). -/
def isPyWS (c : Char) : Bool :=
  c = ' ' || c = '\t' || c = '\n' || c = '\r' || c = Char.ofNat 11 || c = Char.ofNat 12

/-- Drop leading whitespace characters. -/
def dropLeadingWS : List Char → List Char
  | [] => []
  | c :: cs => if isPyWS c then dropLeadingWS cs else c :: cs

/-- Remove leading and trailing whitespace from a character list. -/
def stripList (l : List Char) : List Char :=
  ((dropLeadingWS ((dropLeadingWS l).reverse)).reverse)

/-- Python `str.strip()`. -/
def pyStrip (s : String) : String := ⟨stripList s.data⟩

/-- Does the first list start the second? -/
def listStarts : List Char → List Char → Bool
  | [], _ => true
  | _ :: _, [] => false
  | p :: ps, c :: cs => p = c && listStarts ps cs

/-- Accumulator pass of the whitespace split: `acc` holds the characters of
the word in progress, reversed; a whitespace character or the end of input
flushes it. -/
def splitWordsAux : List Char → List Char → List (List Char)
  | [], acc => if acc.isEmpty then [] else [acc.reverse]
  | c :: cs, acc =>
    if isPyWS c then
      if acc.isEmpty then splitWordsAux cs []
      else acc.reverse :: splitWordsAux cs []
    else splitWordsAux cs (c :: acc)

/-- Split a character list on maximal whitespace runs (Python `str.split()`). -/
def splitWords (l : List Char) : List (List Char) := splitWordsAux l []

/-- Python `str.split()` on a string. -/
def pySplit (s : String) : List String := (splitWords s.data).map String.mk

/-- Python `int(x)` on a (modelled-as-rational) float: truncation toward zero. -/
def pyInt (x : ℚ) : ℤ := if 0 ≤ x then ⌊x⌋ else ⌈x⌉

/-- Python `s.startswith(pat)`. -/
def pyStartswith (s pat : String) : Bool := listStarts pat.data s.data

/-- Python `s.endswith(pat)`. -/
def pyEndswith (s pat : String) : Bool := listStarts pat.data.reverse s.data.reverse

/-- The float literal `0.95` of the source, as an exact rational. -/
def conf95 : ℚ := mkRat 19 20

/-! ### Data model of the decoded whisper.cpp JSON

Only the fields the parser reads are modelled; `Option` marks presence of a
key in the corresponding JSON object (`none` = key absent). -/

/-- One entry of a segment's `tokens` array (`-ojf` output). -/
structure TokenData where
  text : Option String
  offsets_from : Option ℤ
  offsets_to : Option ℤ
  p : Option ℚ
deriving DecidableEq, Repr

/-- One entry of a segment's `words` array (alternative engine format);
`start`/`end` and `t0`/`t1` are fractional seconds. -/
structure WordData where
  word : Option String
  text : Option String
  start : Option ℚ
  t0 : Option ℚ
  end_ : Option ℚ
  t1 : Option ℚ
  confidence : Option ℚ
  p : Option ℚ
deriving DecidableEq, Repr

/-- One entry of the top-level `transcription` array. -/
structure Segment where
  tokens : Option (List TokenData)
  words : Option (List WordData)
  text : Option String
  offsets_from : Option ℤ
  offsets_to : Option ℤ
deriving DecidableEq, Repr

/-- The decoded top-level JSON object.  `topKeys` records the object's key
list (insertion order) as reported by `whisper_data.keys()`. -/
structure WhisperData where
  transcription : Option (List Segment)
  topKeys : List String
deriving DecidableEq, Repr

/-- One caption in the output schema of `transcribe_audio`. -/
structure Caption where
  text : String
  startMs : ℤ
  endMs : ℤ
  timestampMs : ℤ
  confidence : ℚ
deriving DecidableEq, Repr

/-! ### The extraction ladder of `_parse_whisper_output`
(transcription_engine.py lines 238-299). -/

/-- Token tier (lines 242-260): skip special tokens such as
`[_TT_xxx]`, `[_BEG_]` and whitespace-only tokens, else build one caption
from the token's offsets and probability. -/
def tokenCaption (token_data : TokenData) : Option Caption :=
  let token_text := token_data.text.getD ""
  if (pyStartswith token_text "[_" && pyEndswith token_text "]")
      || pyStrip token_text = "" then
    none
  else
    let start_ms := token_data.offsets_from.getD 0
    let end_ms := token_data.offsets_to.getD 0
    some { text := token_text
           startMs := start_ms
           endMs := end_ms
           timestampMs := start_ms
           confidence := token_data.p.getD conf95 }

/-- Word tier (lines 263-272): one caption per word entry, seconds converted
to milliseconds via Python `int(x * 1000)`; no filtering. -/
def wordCaption (word_data : WordData) : Caption :=
  { text := word_data.word.getD (word_data.text.getD "")
    startMs := pyInt ((word_data.start.getD (word_data.t0.getD 0)) * 1000)
    endMs := pyInt ((word_data.end_.getD (word_data.t1.getD 0)) * 1000)
    timestampMs := pyInt ((word_data.start.getD (word_data.t0.getD 0)) * 1000)
    confidence := word_data.confidence.getD (word_data.p.getD conf95) }

/-- The loop `for i, word in enumerate(words)` of the segment-split tier
(lines 288-299). -/
def splitLoop (start_ms : ℤ) (duration_per_word : ℚ) : ℕ → List String → List Caption
  | _, [] => []
  | i, word :: rest =>
    { text := word
      startMs := start_ms + pyInt (i * duration_per_word)
      endMs := start_ms + pyInt (i * duration_per_word) + pyInt duration_per_word
      timestampMs := start_ms + pyInt (i * duration_per_word)
      confidence := conf95 } :: splitLoop start_ms duration_per_word (i + 1) rest

/-- Segment-split tier (lines 275-299): strip the segment text, split it into
words, and spread the segment duration evenly over them. -/
def segSplitCaptions (segText : String) (ofrom oto : Option ℤ) : List Caption :=
  let text := pyStrip segText
  if text = "" then []
  else
    let words := pySplit text
    let start_ms := ofrom.getD 0
    let end_ms := oto.getD 0
    let duration_per_word : ℚ := ((end_ms - start_ms : ℤ) : ℚ) / (max words.length 1 : ℕ)
    splitLoop start_ms duration_per_word 0 words

/-- Per-segment dispatch: `if 'tokens' in segment ... elif 'words' ...
elif 'text' ...` (lines 241-299); a segment with none of the three keys
contributes nothing. -/
def segmentCaptions (segment : Segment) : List Caption :=
  match segment.tokens with
  | some toks => toks.filterMap tokenCaption
  | none =>
    match segment.words with
    | some ws => ws.map wordCaption
    | none =>
      match segment.text with
      | some t => segSplitCaptions t segment.offsets_from segment.offsets_to
      | none => []

/-- The whole extraction ladder over the decoded structure (lines 238-299):
captions are accumulated segment by segment in input order; without a
`transcription` key nothing is extracted. -/
def extractCaptions (whisper_data : WhisperData) : List Caption :=
  match whisper_data.transcription with
  | some segs => (segs.map segmentCaptions).flatten
  | none => []

/-! ### `_parse_whisper_output` as a state-transforming function
(transcription_engine.py lines 195-326).

The file system visible to the parser is the raw engine output
(`<wav>.wav.json`) and the debug artifact (`<wav>.wav.debug.json`).  The
byte-level decode (lines 213-227) cannot fail because of the lossy
`errors='replace'` fallback; `json.loads` is abstracted as an already-given
`Except String WhisperData` (`.error` = `json.JSONDecodeError`). -/

/-- Presence of the parser-visible artifacts on disk. -/
structure FsState where
  rawExists : Bool
  debugExists : Bool
deriving DecidableEq, Repr

/-- `_parse_whisper_output`: the raw JSON must exist (line 208); a decode
failure is re-raised as `RuntimeError` (line 323); zero extracted captions
write the debug artifact and raise (lines 301-313, re-wrapped by line 325);
only the success path reaches the `os.remove(json_path)` of line 317. -/
def parse_whisper_output (jsonPath debugPath : String)
    (decoded : Except String WhisperData) (fs : FsState) :
    Except String (List Caption) × FsState :=
  if fs.rawExists = false then
    (.error ("Whisper output JSON not found at " ++ jsonPath), fs)
  else
    match decoded with
    | .error e => (.error ("Failed to parse Whisper JSON output: " ++ e), fs)
    | .ok whisper_data =>
      let captions := extractCaptions whisper_data
      if captions.length = 0 then
        (.error ("Error processing transcription: No captions extracted from whisper output. "
            ++ "Debug file saved to: " ++ debugPath
            ++ "\nWhisper data keys: " ++ toString whisper_data.topKeys
            ++ "\nPlease check the debug file to see the actual whisper.cpp output format."),
         { fs with debugExists := true })
      else
        (.ok captions, { fs with rawExists := false })

/-! ### `transcribe_audio` (transcription_engine.py lines 129-193). -/

/-- Environment of one `transcribe_audio` call: outcome of the ffmpeg
conversion, exit code and stderr of the whisper.cpp subprocess, whether that
subprocess created its JSON output, the decoded content of that output, and
whether the best-effort `os.remove(wav_path)` of line 191 would fail. -/
structure TranscribeEnv where
  convertOk : Bool
  convertErr : String
  returncode : ℤ
  stderr : String
  rawCreated : Bool
  decoded : Except String WhisperData
  jsonPath : String
  debugPath : String
  removeWavFails : Bool
deriving Repr

/-- Artifacts on disk after a `transcribe_audio` call. -/
structure TAState where
  wavExists : Bool
  rawExists : Bool
  debugExists : Bool
deriving DecidableEq, Repr

/-- `transcribe_audio`: a conversion failure raises before the WAV-guarding
`try` (line 148); inside it, a non-zero engine exit raises (lines 171-180),
else the parser runs; the `finally` of lines 187-193 removes the temporary
WAV on every path, swallowing any removal error (`except: pass`). -/
def transcribe_audio (env : TranscribeEnv) : Except String (List Caption) × TAState :=
  if env.convertOk = false then
    (.error ("Failed to convert audio file. Make sure ffmpeg is installed.\nError: "
        ++ env.convertErr),
     { wavExists := false, rawExists := false, debugExists := false })
  else
    let body : Except String (List Caption) × FsState :=
      if env.returncode ≠ 0 then
        (.error ("Whisper transcription failed:\n" ++ env.stderr),
         { rawExists := env.rawCreated, debugExists := false })
      else
        parse_whisper_output env.jsonPath env.debugPath env.decoded
          { rawExists := env.rawCreated, debugExists := false }
    (body.1,
     { wavExists := env.removeWavFails
       rawExists := body.2.rawExists
       debugExists := body.2.debugExists })

/-! ### Engine construction (transcription_engine.py lines 22-83). -/

/-- Which of the three search locations holds `main.exe`. -/
inductive ExeLoc where
  | modelsDir
  | whisperCppSubdir
  | bundled
deriving DecidableEq, Repr

/-- File-system facts engine construction depends on: existence of the
requested `ggml-<model>.bin`, of `main.exe` at the three searched
locations, and whether the process runs one-file bundled (`sys._MEIPASS`). -/
structure EngineEnv where
  modelExists : Bool
  mainInModels : Bool
  mainInWhisperCpp : Bool
  hasMeipass : Bool
  mainInMeipass : Bool
deriving DecidableEq, Repr

/-- `_find_whisper_executable` (lines 65-83): models dir, then its
`whisper.cpp` subdirectory, then the bundled location (only checked under
`sys._MEIPASS`); first existing match wins. -/
def find_whisper_executable (env : EngineEnv) : Option ExeLoc :=
  if env.mainInModels then some .modelsDir
  else if env.mainInWhisperCpp then some .whisperCppSubdir
  else if env.hasMeipass && env.mainInMeipass then some .bundled
  else none

/-- Whether `main.exe` exists at a given location in a given environment. -/
def locExists (env : EngineEnv) : ExeLoc → Bool
  | .modelsDir => env.mainInModels
  | .whisperCppSubdir => env.mainInWhisperCpp
  | .bundled => env.hasMeipass && env.mainInMeipass

/-- `TranscriptionEngine.__init__` (lines 22-63): the model file is checked
first (line 49), then the executable search; either absence raises
`FileNotFoundError`.  Path diagnostics interpolated into the model-missing
message are abbreviated to the model name. -/
def engine_init (env : EngineEnv) (model_name : String) : Except String ExeLoc :=
  if env.modelExists = false then
    .error ("Model '" ++ model_name ++ "' not found")
  else
    match find_whisper_executable env with
    | some loc => .ok loc
    | none =>
      .error ("Whisper.cpp executable not found. Please ensure whisper.cpp is built "
          ++ "and main.exe is available in the models directory.")

/-! ### The batch loop (`TranscriptionThread.run`,
caption_generator_app.py lines 35-99). -/

/-- `Except.isOk` as a plain Boolean. -/
def exOk : Except String (List Caption) → Bool
  | .ok _ => true
  | .error _ => false

/-- The `"=" * 60` separator emitted around per-file headers. -/
def sepLine : String := ⟨List.replicate 60 '='⟩

/-- The progress event of line 47. -/
def processingMarker (idx total : ℕ) : String :=
  "Processing file " ++ toString idx ++ " of " ++ toString total

/-- The error-detail progress event of line 69. -/
def errorEvent (name msg : String) : String :=
  "✗ Error processing " ++ name ++ ": " ++ msg

/-- `Path(p).with_suffix('.json').name` on a base name: replace the last
dot-suffix by `.json` (append when there is none). -/
def withJson (name : String) : String :=
  match (name.data.reverse.dropWhile (fun c => c ≠ '.')) with
  | [] => name ++ ".json"
  | _ :: rest => String.mk rest.reverse ++ ".json"

/-- What the per-file loop accumulates: progress events, the success and
failure name lists, and the `file_completed` signals. -/
structure LoopOut where
  events : List String
  successful : List String
  failed : List String
  completed : List (ℕ × ℕ × String)
deriving DecidableEq, Repr

/-- The `for idx, audio_path in enumerate(self.audio_paths, 1)` loop
(lines 44-71): each request is a base name together with the outcome of
`transcribe_audio` plus the caption save for that file; any raised error is
caught at line 68, reported, and recorded in `failed_files`. -/
def batchLoop (total : ℕ) : ℕ → List (String × Except String (List Caption)) → LoopOut
  | _, [] => { events := [], successful := [], failed := [], completed := [] }
  | idx, (name, outcome) :: rest =>
    let r := batchLoop total (idx + 1) rest
    let pre : List String :=
      [sepLine, processingMarker idx total, "File: " ++ name, sepLine,
       "Loading audio file...", "Transcribing audio (this may take a while)..."]
    match outcome with
    | .ok captions =>
      { events := pre ++
          ["Saving captions to: " ++ withJson name,
           "✓ Successfully generated " ++ toString captions.length ++ " caption segments!",
           "✓ Saved to: " ++ withJson name] ++ r.events
        successful := name :: r.successful
        failed := r.failed
        completed := (idx, total, name) :: r.completed }
    | .error e =>
      { events := pre ++ [errorEvent name e] ++ r.events
        successful := r.successful
        failed := name :: r.failed
        completed := r.completed }

/-- Everything `run` reports: the ordered progress events, the
`file_completed` signals, the final `finished(ok, summary)` signal, and the
two name lists. -/
structure BatchOutput where
  events : List String
  completed : List (ℕ × ℕ × String)
  successful : List String
  failed : List String
  finishedOk : Bool
  finishedMsg : String
deriving DecidableEq, Repr

/-- `TranscriptionThread.run` (lines 35-99): engine construction happens
once, inside the outer `try`, before the loop; a construction failure is
caught at line 96 and finishes the batch with no file processed.  Otherwise
the loop runs over all requests and the summary of lines 73-94 follows. -/
def batch_run (init : Except String ExeLoc)
    (reqs : List (String × Except String (List Caption))) : BatchOutput :=
  match init with
  | .error e =>
    { events := ["Initializing transcription engine...",
        "Error during batch transcription: " ++ e]
      completed := []
      successful := []
      failed := []
      finishedOk := false
      finishedMsg := "Error during batch transcription: " ++ e }
  | .ok _ =>
    let total := reqs.length
    let r := batchLoop total 1 reqs
    let summary : List String :=
      ["", sepLine, "BATCH PROCESSING COMPLETED", sepLine,
       "Total files: " ++ toString total,
       "Successful: " ++ toString r.successful.length,
       "Failed: " ++ toString r.failed.length]
      ++ (if r.successful.isEmpty then []
          else "\nSuccessfully processed:" :: r.successful.map (fun f => "  ✓ " ++ f))
      ++ (if r.failed.isEmpty then []
          else "\nFailed to process:" :: r.failed.map (fun f => "  ✗ " ++ f))
    { events := "Initializing transcription engine..." :: (r.events ++ summary)
      completed := r.completed
      successful := r.successful
      failed := r.failed
      finishedOk := r.failed.length = 0
      finishedMsg := toString r.successful.length ++ "/" ++ toString total
          ++ " files processed successfully" }

/-- The full pipeline of one batch: the engine is constructed from the
engine environment with the batch's single model name, and each request's
outcome is what `transcribe_audio` yields on that request's environment. -/
def run_transcription_batch (eenv : EngineEnv) (model_name : String)
    (reqs : List (String × TranscribeEnv)) : BatchOutput :=
  batch_run (engine_init eenv model_name)
    (reqs.map (fun r => (r.1, (transcribe_audio r.2).1)))

/-! ### Claim-side definitions

These restate, in the words of the specification, which tokens are content
and which caption each content token yields; the theorems below compare the
source-side extraction against them. -/

/-- Spec-side: a token is content when its text is non-empty after trimming
and is not bracket-delimited with a leading underscore marker. -/
def tokenKept (token_data : TokenData) : Bool :=
  let token_text := token_data.text.getD ""
  !((pyStartswith token_text "[_" && pyEndswith token_text "]")
      || pyStrip token_text = "")

/-- Spec-side: the caption a content token yields — text from the token's
text, startMs and timestampMs from `offsets.from` (0 when absent), endMs
from `offsets.to` (0 when absent), confidence from `p` (0.95 when absent). -/
def tokenSpecCaption (t : TokenData) : Caption :=
  { text := t.text.getD ""
    startMs := t.offsets_from.getD 0
    endMs := t.offsets_to.getD 0
    timestampMs := t.offsets_from.getD 0
    confidence := t.p.getD conf95 }

/-- All token entries of a segment list, in traversal order. -/
def allTokens (segs : List Segment) : List TokenData :=
  (segs.map (fun s => s.tokens.getD [])).flatten

/-! ### Helper lemmas -/

theorem tokenCaption_eq (t : TokenData) :
    tokenCaption t = if tokenKept t then some (tokenSpecCaption t) else none := by
  simp only [tokenCaption, tokenKept, tokenSpecCaption]
  split
  · next h => simp [h]
  · next h => simp [h]

theorem filterMap_tokenCaption (l : List TokenData) :
    l.filterMap tokenCaption = (l.filter tokenKept).map tokenSpecCaption := by
  induction l with
  | nil => rfl
  | cons t l ih =>
    rw [List.filterMap_cons, List.filter_cons, tokenCaption_eq]
    by_cases h : tokenKept t = true
    · rw [if_pos h, if_pos h, List.map_cons, ih]
    · rw [if_neg h, if_neg (by simpa using h), ih]

theorem splitLoop_length (s : ℤ) (dpw : ℚ) :
    ∀ (i : ℕ) (ws : List String), (splitLoop s dpw i ws).length = ws.length
  | _, [] => rfl
  | i, _ :: ws => by
    simp only [splitLoop, List.length_cons, splitLoop_length s dpw (i + 1) ws]

theorem splitLoop_mem (s : ℤ) (dpw : ℚ) :
    ∀ (i : ℕ) (ws : List String), ∀ c ∈ splitLoop s dpw i ws,
      c.timestampMs = c.startMs ∧ c.endMs - c.startMs = pyInt dpw ∧
      c.confidence = conf95 ∧ c.text ∈ ws
  | _, [], c, h => by simp [splitLoop] at h
  | i, w :: ws, c, h => by
    simp only [splitLoop, List.mem_cons] at h
    rcases h with h | h
    · subst h
      refine ⟨rfl, by ring, rfl, List.mem_cons_self _ _⟩
    · have h2 := splitLoop_mem s dpw (i + 1) ws c h
      exact ⟨h2.1, h2.2.1, h2.2.2.1, List.mem_cons_of_mem _ h2.2.2.2⟩

theorem splitLoop_durations (s : ℤ) (dpw : ℚ) :
    ∀ (i : ℕ) (ws : List String),
      (splitLoop s dpw i ws).map (fun c => c.endMs - c.startMs)
        = List.replicate ws.length (pyInt dpw)
  | _, [] => rfl
  | i, w :: ws => by
    simp only [splitLoop, List.map_cons, List.length_cons, List.replicate_succ,
      splitLoop_durations s dpw (i + 1) ws]
    congr 1
    ring

theorem splitWordsAux_mem : ∀ (l acc : List Char),
    (∀ c ∈ acc, isPyWS c = false) →
    ∀ w ∈ splitWordsAux l acc, w ≠ [] ∧ ∀ c ∈ w, isPyWS c = false
  | [], acc, hacc, w, hw => by
    rw [splitWordsAux] at hw
    by_cases h : acc.isEmpty
    · rw [if_pos h] at hw
      simp at hw
    · rw [if_neg h] at hw
      rcases List.mem_singleton.mp hw with rfl
      refine ⟨?_, fun c hc => hacc c (List.mem_reverse.mp hc)⟩
      simpa [List.isEmpty_iff] using h
  | c :: cs, acc, hacc, w, hw => by
    rw [splitWordsAux] at hw
    by_cases hws : isPyWS c = true
    · rw [if_pos hws] at hw
      by_cases h0 : acc.isEmpty
      · rw [if_pos h0] at hw
        exact splitWordsAux_mem cs [] (by simp) w hw
      · rw [if_neg h0] at hw
        rcases List.mem_cons.mp hw with rfl | h
        · refine ⟨?_, fun d hd => hacc d (List.mem_reverse.mp hd)⟩
          simpa [List.isEmpty_iff] using h0
        · exact splitWordsAux_mem cs [] (by simp) w h
    · rw [if_neg hws] at hw
      refine splitWordsAux_mem cs (c :: acc) ?_ w hw
      intro d hd
      rcases List.mem_cons.mp hd with rfl | hd
      · simpa using hws
      · exact hacc d hd

theorem splitWords_mem (l : List Char) : ∀ w ∈ splitWords l,
    w ≠ [] ∧ ∀ c ∈ w, isPyWS c = false :=
  splitWordsAux_mem l [] (by simp)

theorem dropLeadingWS_of_clean (w : List Char) (h : ∀ c ∈ w, isPyWS c = false) :
    dropLeadingWS w = w := by
  cases w with
  | nil => rfl
  | cons c cs =>
    rw [dropLeadingWS, if_neg]
    simp [h c (List.mem_cons_self c cs)]

theorem stripList_of_clean (w : List Char) (h : ∀ c ∈ w, isPyWS c = false) :
    stripList w = w := by
  unfold stripList
  rw [dropLeadingWS_of_clean w h, dropLeadingWS_of_clean w.reverse
    (fun c hc => h c (List.mem_reverse.mp hc)), List.reverse_reverse]

theorem pySplit_strip_ne (s : String) : ∀ w ∈ pySplit s, pyStrip w ≠ "" := by
  intro w hw
  rcases List.mem_map.mp hw with ⟨l, hl, rfl⟩
  have h := splitWords_mem s.data l hl
  unfold pyStrip
  rw [show (String.mk l).data = l from rfl, stripList_of_clean l h.2]
  intro hcon
  exact h.1 (by simpa [String.ext_iff] using hcon)

theorem length_filter_add (p : α → Bool) (l : List α) :
    (l.filter p).length + (l.filter (fun a => !p a)).length = l.length := by
  induction l with
  | nil => rfl
  | cons a l ih =>
    by_cases h : p a = true <;>
      simp only [List.filter_cons, h, if_pos, if_neg, Bool.not_true, Bool.not_false,
        Bool.false_eq_true, not_false_eq_true, List.length_cons, ite_true, ite_false] <;>
      omega

theorem filterMap_flatten' (f : α → Option β) (L : List (List α)) :
    L.flatten.filterMap f = (L.map (fun l => l.filterMap f)).flatten := by
  induction L with
  | nil => rfl
  | cons l L ih => simp [List.filterMap_append, ih]

theorem batchLoop_successful (total : ℕ) :
    ∀ (idx : ℕ) (reqs : List (String × Except String (List Caption))),
      (batchLoop total idx reqs).successful
        = (reqs.filter (fun r => exOk r.2)).map Prod.fst
  | _, [] => rfl
  | idx, (name, outcome) :: rest => by
    cases outcome with
    | ok caps =>
      simp [batchLoop, List.filter_cons, exOk,
        batchLoop_successful total (idx + 1) rest]
    | error e =>
      simp [batchLoop, List.filter_cons, exOk,
        batchLoop_successful total (idx + 1) rest]

theorem batchLoop_failed (total : ℕ) :
    ∀ (idx : ℕ) (reqs : List (String × Except String (List Caption))),
      (batchLoop total idx reqs).failed
        = (reqs.filter (fun r => !exOk r.2)).map Prod.fst
  | _, [] => rfl
  | idx, (name, outcome) :: rest => by
    cases outcome with
    | ok caps =>
      simp [batchLoop, List.filter_cons, exOk,
        batchLoop_failed total (idx + 1) rest]
    | error e =>
      simp [batchLoop, List.filter_cons, exOk,
        batchLoop_failed total (idx + 1) rest]

theorem batchLoop_errorEvent (total : ℕ) :
    ∀ (idx : ℕ) (reqs : List (String × Except String (List Caption))),
      ∀ p ∈ reqs, ∀ e, p.2 = Except.error e →
        errorEvent p.1 e ∈ (batchLoop total idx reqs).events
  | _, [], p, hp, _, _ => by simp at hp
  | idx, (name, outcome) :: rest, p, hp, e, he => by
    rcases List.mem_cons.mp hp with h | h
    · subst h
      simp only at he
      subst he
      simp [batchLoop]
    · have ih := batchLoop_errorEvent total (idx + 1) rest p h e he
      cases outcome <;> simp [batchLoop, ih]

theorem batchLoop_marker (total : ℕ) :
    ∀ (idx : ℕ) (reqs : List (String × Except String (List Caption))),
      ∀ i, i < reqs.length →
        processingMarker (idx + i) total ∈ (batchLoop total idx reqs).events
  | _, [], _, h => by simp at h
  | idx, (name, outcome) :: rest, i, h => by
    cases i with
    | zero =>
      cases outcome <;> simp [batchLoop]
    | succ j =>
      have hj : j < rest.length := by
        simpa [Nat.succ_lt_succ_iff] using h
      have ih := batchLoop_marker total (idx + 1) rest j hj
      have harith : idx + (j + 1) = idx + 1 + j := by omega
      rw [harith]
      cases outcome <;> simp [batchLoop, ih]

/-- A membership in `segmentCaptions` comes from one of the three tiers and
always satisfies `timestampMs = startMs`. -/
theorem segmentCaptions_timestamp (seg : Segment) :
    ∀ c ∈ segmentCaptions seg, c.timestampMs = c.startMs := by
  obtain ⟨tok, wrd, txt, ofrom, oto⟩ := seg
  intro c hc
  cases tok with
  | some toks =>
    simp only [segmentCaptions] at hc
    rcases List.mem_filterMap.mp hc with ⟨t, _, htc⟩
    rw [tokenCaption_eq] at htc
    by_cases hk : tokenKept t = true
    · rw [if_pos hk] at htc
      cases htc
      rfl
    · rw [if_neg hk] at htc
      cases htc
  | none =>
    cases wrd with
    | some ws =>
      simp only [segmentCaptions] at hc
      rcases List.mem_map.mp hc with ⟨wd, _, rfl⟩
      rfl
    | none =>
      cases txt with
      | some t =>
        simp only [segmentCaptions, segSplitCaptions] at hc
        split at hc
        · simp at hc
        · exact (splitLoop_mem _ _ _ _ c hc).1
      | none => simp [segmentCaptions] at hc

/-- C9: for every Caption emitted by the parser, under any of the three
extraction tiers (token, word, segment-split), the `timestampMs` field
equals the `startMs` field. -/
theorem timestamp_equals_startMs (w : WhisperData) :
    ∀ c ∈ extractCaptions w, c.timestampMs = c.startMs := by
  intro c hc
  unfold extractCaptions at hc
  cases htr : w.transcription with
  | none => rw [htr] at hc; simp at hc
  | some segs =>
    rw [htr] at hc
    rcases List.mem_flatten.mp hc with ⟨l, hl, hcl⟩
    rcases List.mem_map.mp hl with ⟨seg, _, rfl⟩
    exact segmentCaptions_timestamp seg c hcl

/-- A concrete decoded transcript exercising the token tier: one control
token followed by one content token. -/
def sampleTokenData : WhisperData :=
  { transcription := some
      [⟨some [⟨some "[_BEG_]", some 0, some 0, none⟩,
              ⟨some " hi", some 3, some 9, some (mkRat 1 2)⟩],
        none, none, none, none⟩],
    topKeys := ["transcription"] }

/-- Witness for C9: a concrete transcript exercising the token tier. -/
theorem timestamp_equals_startMs_witness :
    (⟨" hi", 3, 9, 3, mkRat 1 2⟩ : Caption) ∈ extractCaptions sampleTokenData ∧
    (⟨" hi", 3, 9, 3, mkRat 1 2⟩ : Caption).timestampMs
      = (⟨" hi", 3, 9, 3, mkRat 1 2⟩ : Caption).startMs :=
  ⟨by decide, timestamp_equals_startMs sampleTokenData _ (by decide)⟩

/-- C10 (amended): under the token tier every emitted Caption's text is
non-empty after trimming and is not an engine-internal control token; under
the segment-split tier every emitted Caption's text is non-empty after
trimming; the word tier emits the word entry's text verbatim, which may be
empty or a control token. -/
theorem caption_text_filter (seg : Segment) :
    (seg.tokens.isSome = true →
      ∀ c ∈ segmentCaptions seg, pyStrip c.text ≠ "" ∧
        (pyStartswith c.text "[_" && pyEndswith c.text "]") = false) ∧
    (seg.tokens = none → seg.words = none →
      ∀ c ∈ segmentCaptions seg, pyStrip c.text ≠ "") := by
  obtain ⟨tok, wrd, txt, ofrom, oto⟩ := seg
  constructor
  · intro htok c hc
    cases tok with
    | none => simp at htok
    | some toks =>
      simp only [segmentCaptions] at hc
      rcases List.mem_filterMap.mp hc with ⟨t, _, htc⟩
      rw [tokenCaption_eq] at htc
      by_cases hk : tokenKept t = true
      · rw [if_pos hk] at htc
        cases htc
        simp only [tokenKept, Bool.not_eq_true', Bool.or_eq_false_iff,
          decide_eq_false_iff_not] at hk
        exact ⟨hk.2, hk.1⟩
      · rw [if_neg hk] at htc
        cases htc
  · intro htok hwrd c hc
    subst htok
    subst hwrd
    cases txt with
    | none => simp [segmentCaptions] at hc
    | some t =>
      simp only [segmentCaptions, segSplitCaptions] at hc
      split at hc
      · simp at hc
      · exact pySplit_strip_ne _ _ (splitLoop_mem _ _ _ _ c hc).2.2.2

/-- Witness for C10 (amended): the content token of the sample segment has
non-empty trimmed text. -/
theorem caption_text_filter_witness :
    (⟨some [⟨some "[_BEG_]", some 0, some 0, none⟩,
        ⟨some " hi", some 3, some 9, some (mkRat 1 2)⟩],
      none, none, none, none⟩ : Segment).tokens.isSome = true ∧
    (⟨" hi", 3, 9, 3, mkRat 1 2⟩ : Caption) ∈ segmentCaptions
      ⟨some [⟨some "[_BEG_]", some 0, some 0, none⟩,
        ⟨some " hi", some 3, some 9, some (mkRat 1 2)⟩],
      none, none, none, none⟩ ∧
    pyStrip (⟨" hi", 3, 9, 3, mkRat 1 2⟩ : Caption).text ≠ "" :=
  ⟨rfl, by decide,
   ((caption_text_filter
       ⟨some [⟨some "[_BEG_]", some 0, some 0, none⟩,
          ⟨some " hi", some 3, some 9, some (mkRat 1 2)⟩],
        none, none, none, none⟩).1 rfl _ (by decide)).1⟩

/-- Counterexample to C10 as stated: a word-tier entry carrying neither a
`word` nor a `text` field yields a Caption whose text is the empty string,
so not every emitted Caption has non-empty trimmed text. -/
theorem caption_text_filter_cex :
    (extractCaptions
        { transcription := some
            [⟨none, some [⟨none, none, none, none, none, none, none, none⟩],
              none, none, none⟩],
          topKeys := ["transcription"] }).map Caption.text = [""] := by
  simp [extractCaptions, segmentCaptions, wordCaption]

/-- C3: for every raw output that decodes to valid JSON, if the extraction
ladder emits zero Captions then parse does not return (an empty) caption
list: it writes the debug artifact and fails with an error whose message
carries the top-level keys of the decoded structure. -/
theorem empty_result_policy (jsonPath debugPath : String) (w : WhisperData)
    (fs : FsState) (hraw : fs.rawExists = true)
    (hempty : extractCaptions w = []) :
    parse_whisper_output jsonPath debugPath (.ok w) fs
      = (.error ("Error processing transcription: No captions extracted from whisper output. "
          ++ "Debug file saved to: " ++ debugPath
          ++ "\nWhisper data keys: " ++ toString w.topKeys
          ++ "\nPlease check the debug file to see the actual whisper.cpp output format."),
        { fs with debugExists := true }) ∧
    ∀ cs, (parse_whisper_output jsonPath debugPath (.ok w) fs).1 ≠ Except.ok cs := by
  have h : parse_whisper_output jsonPath debugPath (.ok w) fs
      = (.error ("Error processing transcription: No captions extracted from whisper output. "
          ++ "Debug file saved to: " ++ debugPath
          ++ "\nWhisper data keys: " ++ toString w.topKeys
          ++ "\nPlease check the debug file to see the actual whisper.cpp output format."),
        { fs with debugExists := true }) := by
    unfold parse_whisper_output
    rw [hraw]
    simp [hempty]
  refine ⟨h, fun cs => ?_⟩
  rw [h]
  simp

/-- Witness for C3: a transcript with a `transcription` key but no segments
makes parsing fail and write the debug artifact. -/
theorem empty_result_policy_witness :
    extractCaptions (⟨some [], ["transcription"]⟩ : WhisperData) = [] ∧
    (parse_whisper_output "o.wav.json" "o.wav.debug.json"
        (.ok ⟨some [], ["transcription"]⟩) ⟨true, false⟩).2.debugExists = true ∧
    (parse_whisper_output "o.wav.json" "o.wav.debug.json"
        (.ok ⟨some [], ["transcription"]⟩) ⟨true, false⟩).1 ≠ Except.ok [] :=
  ⟨rfl,
   by rw [(empty_result_policy "o.wav.json" "o.wav.debug.json"
       ⟨some [], ["transcription"]⟩ ⟨true, false⟩ rfl rfl).1],
   (empty_result_policy "o.wav.json" "o.wav.debug.json"
       ⟨some [], ["transcription"]⟩ ⟨true, false⟩ rfl rfl).2 []⟩

/-- Counterexample to C5 as stated: on the invalid-JSON failure path the raw
output artifact is NOT deleted — `os.remove(json_path)` sits after the
extraction inside the `try`, and the `except json.JSONDecodeError` handler
re-raises without reaching it. -/
theorem raw_cleanup_cex :
    parse_whisper_output "o.wav.json" "o.wav.debug.json"
        (.error "Expecting value") ⟨true, false⟩
      = (.error "Failed to parse Whisper JSON output: Expecting value",
         ⟨true, false⟩) := rfl

/-- C5 (amended): the raw output artifact is deleted on the success path
only; on every failure path (missing raw file, invalid JSON, zero captions
extracted) it is left in place; the debug artifact, when written, is
retained. -/
theorem raw_cleanup_amended (jsonPath debugPath : String)
    (decoded : Except String WhisperData) (fs : FsState) :
    (exOk (parse_whisper_output jsonPath debugPath decoded fs).1 = true →
        (parse_whisper_output jsonPath debugPath decoded fs).2.rawExists = false) ∧
    (exOk (parse_whisper_output jsonPath debugPath decoded fs).1 = false →
        (parse_whisper_output jsonPath debugPath decoded fs).2.rawExists = fs.rawExists) ∧
    (fs.debugExists = true →
        (parse_whisper_output jsonPath debugPath decoded fs).2.debugExists = true) := by
  unfold parse_whisper_output
  by_cases hr : fs.rawExists = false
  · simp [hr, exOk]
  · rw [if_neg hr]
    cases decoded with
    | error e => simp [exOk]
    | ok w =>
      by_cases hl : (extractCaptions w).length = 0
      · simp [hl, exOk]
      · simp [hl, exOk]

/-- Witness for C5 (amended): a successful parse deletes the raw artifact. -/
theorem raw_cleanup_amended_witness :
    exOk (parse_whisper_output "o.wav.json" "o.wav.debug.json"
        (.ok sampleTokenData) ⟨true, false⟩).1 = true ∧
    (parse_whisper_output "o.wav.json" "o.wav.debug.json"
        (.ok sampleTokenData) ⟨true, false⟩).2.rawExists = false :=
  ⟨by decide,
   (raw_cleanup_amended "o.wav.json" "o.wav.debug.json"
       (.ok sampleTokenData) ⟨true, false⟩).1 (by decide)⟩

/-- C6: whenever audio normalization succeeds and creates the temporary WAV,
that WAV is removed on every exit path of `transcribe_audio` (normal return,
engine non-zero exit, parse failure), and a failure of the removal itself
never changes the outcome returned to the caller. -/
theorem wav_cleanup (env : TranscribeEnv) (hconv : env.convertOk = true) :
    (transcribe_audio env).2.wavExists = env.removeWavFails ∧
    (env.removeWavFails = false → (transcribe_audio env).2.wavExists = false) ∧
    (∀ b, (transcribe_audio { env with removeWavFails := b }).1
        = (transcribe_audio env).1) := by
  refine ⟨?_, ?_, ?_⟩ <;> simp [transcribe_audio, hconv]

/-- Witness for C6: a concrete run whose engine exits non-zero still removes
the WAV. -/
theorem wav_cleanup_witness :
    ({ convertOk := true, convertErr := "", returncode := 1, stderr := "boom",
       rawCreated := false, decoded := .error "no file", jsonPath := "o.wav.json",
       debugPath := "o.wav.debug.json", removeWavFails := false } : TranscribeEnv).convertOk
      = true ∧
    (transcribe_audio
        { convertOk := true, convertErr := "", returncode := 1, stderr := "boom",
          rawCreated := false, decoded := .error "no file", jsonPath := "o.wav.json",
          debugPath := "o.wav.debug.json", removeWavFails := false }).2.wavExists = false :=
  ⟨rfl,
   (wav_cleanup
       { convertOk := true, convertErr := "", returncode := 1, stderr := "boom",
         rawCreated := false, decoded := .error "no file", jsonPath := "o.wav.json",
         debugPath := "o.wav.debug.json", removeWavFails := false } rfl).2.1 rfl⟩

/-- C8: engine construction searches models dir, then its `whisper.cpp`
subdirectory, then the bundled location, in that order, and uses the first
existing match; successful construction implies the chosen executable
existed; absence of all three makes construction fail. -/
theorem engine_discovery (env : EngineEnv) (model_name : String) :
    (find_whisper_executable env = some .modelsDir ↔ env.mainInModels = true) ∧
    (find_whisper_executable env = some .whisperCppSubdir ↔
        (env.mainInModels = false ∧ env.mainInWhisperCpp = true)) ∧
    (find_whisper_executable env = some .bundled ↔
        (env.mainInModels = false ∧ env.mainInWhisperCpp = false ∧
         env.hasMeipass = true ∧ env.mainInMeipass = true)) ∧
    (find_whisper_executable env = none ↔
        (env.mainInModels = false ∧ env.mainInWhisperCpp = false ∧
         (env.hasMeipass && env.mainInMeipass) = false)) ∧
    (∀ loc, engine_init env model_name = .ok loc → locExists env loc = true) ∧
    ((∃ e, engine_init env model_name = .error e) ↔
        (env.modelExists = false ∨ find_whisper_executable env = none)) := by
  obtain ⟨m, a, b, hp, mm⟩ := env
  cases m <;> cases a <;> cases b <;> cases hp <;> cases mm <;>
    simp [find_whisper_executable, engine_init, locExists]

/-- Witness for C8: an environment with the executable only in the
`whisper.cpp` subdirectory constructs the engine from that location, which
exists. -/
theorem engine_discovery_witness :
    engine_init ⟨true, false, true, false, false⟩ "small" = .ok .whisperCppSubdir ∧
    locExists ⟨true, false, true, false, false⟩ .whisperCppSubdir = true :=
  ⟨rfl,
   (engine_discovery ⟨true, false, true, false, false⟩ "small").2.2.2.2.1
     .whisperCppSubdir rfl⟩

/-- C2: with the engine constructed, the batch attempts every request in
order; failures are recorded (after an error-detail event carrying the
error's message) and processing continues; the final ok flag holds iff the
failure list is empty; the success and failure lists partition the input
base names in order. -/
theorem batch_isolation (init : Except String ExeLoc) (loc : ExeLoc)
    (hinit : init = .ok loc)
    (reqs : List (String × Except String (List Caption))) :
    (batch_run init reqs).successful
        = (reqs.filter (fun r => exOk r.2)).map Prod.fst ∧
    (batch_run init reqs).failed
        = (reqs.filter (fun r => !exOk r.2)).map Prod.fst ∧
    (batch_run init reqs).successful.length + (batch_run init reqs).failed.length
        = reqs.length ∧
    ((batch_run init reqs).finishedOk = true ↔ (batch_run init reqs).failed = []) ∧
    (∀ p ∈ reqs, ∀ e, p.2 = Except.error e →
        errorEvent p.1 e ∈ (batch_run init reqs).events) ∧
    (∀ i, i < reqs.length →
        processingMarker (i + 1) reqs.length ∈ (batch_run init reqs).events) := by
  subst hinit
  have hsucc : (batch_run (.ok loc) reqs).successful
      = (batchLoop reqs.length 1 reqs).successful := rfl
  have hfail : (batch_run (.ok loc) reqs).failed
      = (batchLoop reqs.length 1 reqs).failed := rfl
  have hev : (batch_run (.ok loc) reqs).events
      = "Initializing transcription engine..."
          :: ((batchLoop reqs.length 1 reqs).events ++ _) := rfl
  refine ⟨?_, ?_, ?_, ?_, ?_, ?_⟩
  · rw [hsucc, batchLoop_successful]
  · rw [hfail, batchLoop_failed]
  · rw [hsucc, hfail, batchLoop_successful, batchLoop_failed]
    simp only [List.length_map]
    exact length_filter_add _ reqs
  · show (decide ((batchLoop reqs.length 1 reqs).failed.length = 0) = true) ↔ _
    rw [hfail]
    simp [List.length_eq_zero]
  · intro p hp e he
    rw [hev]
    exact List.mem_cons_of_mem _
      (List.mem_append_left _ (batchLoop_errorEvent reqs.length 1 reqs p hp e he))
  · intro i hi
    rw [hev]
    have := batchLoop_marker reqs.length 1 reqs i hi
    rw [show 1 + i = i + 1 from by omega] at this
    exact List.mem_cons_of_mem _ (List.mem_append_left _ this)

/-- Witness for C2: a two-request batch whose second request fails records
one success, one failure, a false ok flag, and the error event. -/
theorem batch_isolation_witness :
    (batch_run (.ok .modelsDir)
        [("a.mp3", .ok [⟨"hi", 0, 5, 0, mkRat 1 2⟩]), ("b.mp3", .error "boom")]).successful
      = ([("a.mp3", (.ok [⟨"hi", 0, 5, 0, mkRat 1 2⟩] : Except String (List Caption))),
          ("b.mp3", .error "boom")].filter (fun r => exOk r.2)).map Prod.fst ∧
    (batch_run (.ok .modelsDir)
        [("a.mp3", .ok [⟨"hi", 0, 5, 0, mkRat 1 2⟩]), ("b.mp3", .error "boom")]).failed
      = ([("a.mp3", (.ok [⟨"hi", 0, 5, 0, mkRat 1 2⟩] : Except String (List Caption))),
          ("b.mp3", .error "boom")].filter (fun r => !exOk r.2)).map Prod.fst ∧
    (batch_run (.ok .modelsDir)
        [("a.mp3", .ok [⟨"hi", 0, 5, 0, mkRat 1 2⟩]), ("b.mp3", .error "boom")]).successful.length
      + (batch_run (.ok .modelsDir)
        [("a.mp3", .ok [⟨"hi", 0, 5, 0, mkRat 1 2⟩]), ("b.mp3", .error "boom")]).failed.length
      = 2 ∧
    ((batch_run (.ok .modelsDir)
        [("a.mp3", .ok [⟨"hi", 0, 5, 0, mkRat 1 2⟩]), ("b.mp3", .error "boom")]).finishedOk = true
      ↔ (batch_run (.ok .modelsDir)
        [("a.mp3", .ok [⟨"hi", 0, 5, 0, mkRat 1 2⟩]), ("b.mp3", .error "boom")]).failed = []) ∧
    (∀ p ∈ [("a.mp3", (.ok [⟨"hi", 0, 5, 0, mkRat 1 2⟩] : Except String (List Caption))),
          ("b.mp3", .error "boom")], ∀ e, p.2 = Except.error e →
        errorEvent p.1 e ∈ (batch_run (.ok .modelsDir)
          [("a.mp3", .ok [⟨"hi", 0, 5, 0, mkRat 1 2⟩]), ("b.mp3", .error "boom")]).events) ∧
    (∀ i, i < 2 → processingMarker (i + 1) 2 ∈ (batch_run (.ok .modelsDir)
        [("a.mp3", .ok [⟨"hi", 0, 5, 0, mkRat 1 2⟩]), ("b.mp3", .error "boom")]).events) :=
  batch_isolation (.ok .modelsDir) .modelsDir rfl
    [("a.mp3", .ok [⟨"hi", 0, 5, 0, mkRat 1 2⟩]), ("b.mp3", .error "boom")]

/-- A request environment whose whole pipeline (conversion, engine, parse)
succeeds. -/
def sampleGoodEnv : TranscribeEnv :=
  { convertOk := true, convertErr := "", returncode := 0, stderr := "",
    rawCreated := true, decoded := .ok sampleTokenData,
    jsonPath := "a.wav.json", debugPath := "a.wav.debug.json",
    removeWavFails := false }

/-- Counterexample to C7 as stated: the model artifact is checked once, at
engine construction before the loop, so a missing model aborts the whole
batch — two perfectly processable requests are neither succeeded nor
recorded as per-request failures. -/
theorem error_propagation_cex :
    exOk (transcribe_audio sampleGoodEnv).1 = true ∧
    (run_transcription_batch ⟨false, true, true, false, false⟩ "small"
        [("a.mp3", sampleGoodEnv), ("b.mp3", sampleGoodEnv)]).successful = [] ∧
    (run_transcription_batch ⟨false, true, true, false, false⟩ "small"
        [("a.mp3", sampleGoodEnv), ("b.mp3", sampleGoodEnv)]).failed = [] ∧
    (run_transcription_batch ⟨false, true, true, false, false⟩ "small"
        [("a.mp3", sampleGoodEnv), ("b.mp3", sampleGoodEnv)]).finishedOk = false :=
  ⟨by decide, rfl, rfl, rfl⟩

/-- C7 (amended): conversion failures, engine non-zero exits and parse
failures — any error a request's `transcribe_audio` raises — are caught at
the per-request boundary and recorded for that request only, never
terminating the batch; but a missing model artifact, like a missing engine
executable, fails engine construction before any request is processed and
aborts the whole batch with no per-request record. -/
theorem error_propagation (eenv : EngineEnv) (model_name : String)
    (reqs : List (String × TranscribeEnv)) :
    (∀ e, engine_init eenv model_name = .error e →
        (run_transcription_batch eenv model_name reqs).successful = [] ∧
        (run_transcription_batch eenv model_name reqs).failed = [] ∧
        (run_transcription_batch eenv model_name reqs).completed = [] ∧
        (run_transcription_batch eenv model_name reqs).finishedOk = false ∧
        (run_transcription_batch eenv model_name reqs).finishedMsg
          = "Error during batch transcription: " ++ e) ∧
    (∀ loc, engine_init eenv model_name = .ok loc →
        (run_transcription_batch eenv model_name reqs).successful
          = (reqs.filter (fun r => exOk (transcribe_audio r.2).1)).map Prod.fst ∧
        (run_transcription_batch eenv model_name reqs).failed
          = (reqs.filter (fun r => !exOk (transcribe_audio r.2).1)).map Prod.fst ∧
        (run_transcription_batch eenv model_name reqs).successful.length
          + (run_transcription_batch eenv model_name reqs).failed.length
          = reqs.length) := by
  constructor
  · intro e he
    unfold run_transcription_batch
    rw [he]
    exact ⟨rfl, rfl, rfl, rfl, rfl⟩
  · intro loc hloc
    unfold run_transcription_batch
    rw [hloc]
    have hs : (batch_run (.ok loc)
          (reqs.map (fun r => (r.1, (transcribe_audio r.2).1)))).successful
        = (reqs.filter (fun r => exOk (transcribe_audio r.2).1)).map Prod.fst := by
      show (batchLoop _ 1 _).successful = _
      rw [batchLoop_successful]
      rw [List.filter_map, List.map_map]
      rfl
    have hf : (batch_run (.ok loc)
          (reqs.map (fun r => (r.1, (transcribe_audio r.2).1)))).failed
        = (reqs.filter (fun r => !exOk (transcribe_audio r.2).1)).map Prod.fst := by
      show (batchLoop _ 1 _).failed = _
      rw [batchLoop_failed]
      rw [List.filter_map, List.map_map]
      rfl
    refine ⟨hs, hf, ?_⟩
    rw [hs, hf]
    simp only [List.length_map]
    exact length_filter_add _ reqs

/-- Witness for C7 (amended): with the model present and the executable in
the models directory, a one-request batch records that request. -/
theorem error_propagation_witness :
    engine_init ⟨true, true, false, false, false⟩ "small" = .ok ExeLoc.modelsDir ∧
    ((run_transcription_batch ⟨true, true, false, false, false⟩ "small"
        [("a.mp3", sampleGoodEnv)]).successful
      = ([("a.mp3", sampleGoodEnv)].filter
          (fun r => exOk (transcribe_audio r.2).1)).map Prod.fst ∧
     (run_transcription_batch ⟨true, true, false, false, false⟩ "small"
        [("a.mp3", sampleGoodEnv)]).failed
      = ([("a.mp3", sampleGoodEnv)].filter
          (fun r => !exOk (transcribe_audio r.2).1)).map Prod.fst ∧
     (run_transcription_batch ⟨true, true, false, false, false⟩ "small"
        [("a.mp3", sampleGoodEnv)]).successful.length
      + (run_transcription_batch ⟨true, true, false, false, false⟩ "small"
        [("a.mp3", sampleGoodEnv)]).failed.length = 1) :=
  ⟨rfl, (error_propagation ⟨true, true, false, false, false⟩ "small"
      [("a.mp3", sampleGoodEnv)]).2 .modelsDir rfl⟩

/-- C1: on a transcript all of whose segments carry a `tokens` array, the
extraction emits exactly the non-control, non-empty tokens, in input order,
mapped to captions by the claimed field assignment; the caption count equals
the surviving-token count; when the input offsets are non-decreasing so are
the emitted `startMs`; and a non-empty extraction is what parse returns. -/
theorem token_tier (w : WhisperData) (segs : List Segment)
    (htr : w.transcription = some segs)
    (hall : ∀ s ∈ segs, s.tokens.isSome = true)
    (hord : List.Chain' (· ≤ ·)
        ((allTokens segs).map (fun t => t.offsets_from.getD 0))) :
    extractCaptions w = ((allTokens segs).filter tokenKept).map tokenSpecCaption ∧
    (extractCaptions w).length = ((allTokens segs).filter tokenKept).length ∧
    List.Chain' (· ≤ ·) ((extractCaptions w).map Caption.startMs) ∧
    (0 < (extractCaptions w).length →
      ∀ jsonPath debugPath fs, fs.rawExists = true →
        (parse_whisper_output jsonPath debugPath (.ok w) fs).1
          = .ok (extractCaptions w)) := by
  have hseg : ∀ s ∈ segs,
      segmentCaptions s = (s.tokens.getD []).filterMap tokenCaption := by
    intro s hs
    rcases Option.isSome_iff_exists.mp (hall s hs) with ⟨toks, htoks⟩
    obtain ⟨tok, wrd, txt, a, b⟩ := s
    obtain rfl : tok = some toks := htoks
    rfl
  have hmain : extractCaptions w
      = ((allTokens segs).filter tokenKept).map tokenSpecCaption := by
    calc extractCaptions w
        = (segs.map segmentCaptions).flatten := by
          unfold extractCaptions; rw [htr]
      _ = (segs.map (fun s => (s.tokens.getD []).filterMap tokenCaption)).flatten := by
          rw [List.map_congr_left hseg]
      _ = ((segs.map (fun s => s.tokens.getD [])).map
            (fun l => l.filterMap tokenCaption)).flatten := by
          rw [List.map_map]; rfl
      _ = (allTokens segs).filterMap tokenCaption :=
          (filterMap_flatten' tokenCaption _).symm
      _ = ((allTokens segs).filter tokenKept).map tokenSpecCaption :=
          filterMap_tokenCaption _
  refine ⟨hmain, ?_, ?_, ?_⟩
  · rw [hmain, List.length_map]
  · rw [hmain, List.map_map]
    have hcomp : (Caption.startMs ∘ tokenSpecCaption)
        = fun t => t.offsets_from.getD 0 := rfl
    rw [hcomp]
    rw [List.chain'_iff_pairwise] at hord ⊢
    rw [List.pairwise_map] at hord ⊢
    exact List.Pairwise.sublist (List.filter_sublist _) hord
  · intro hpos jsonPath debugPath fs hraw
    have h0 : ¬((extractCaptions w).length = 0) := by omega
    unfold parse_whisper_output
    simp [hraw, h0]

/-- Witness for C1: the sample transcript keeps exactly its one content
token and parse returns it. -/
theorem token_tier_witness :
    extractCaptions sampleTokenData
      = ((allTokens [⟨some [⟨some "[_BEG_]", some 0, some 0, none⟩,
            ⟨some " hi", some 3, some 9, some (mkRat 1 2)⟩],
          none, none, none, none⟩]).filter tokenKept).map tokenSpecCaption ∧
    (parse_whisper_output "o.wav.json" "o.wav.debug.json" (.ok sampleTokenData)
        ⟨true, false⟩).1 = .ok (extractCaptions sampleTokenData) :=
  ⟨(token_tier sampleTokenData _ rfl (by decide)
      (by norm_num [allTokens, List.chain'_cons, List.chain'_singleton])).1,
   (token_tier sampleTokenData _ rfl (by decide)
      (by norm_num [allTokens, List.chain'_cons, List.chain'_singleton])).2.2.2 (by decide)
     "o.wav.json" "o.wav.debug.json" ⟨true, false⟩ rfl⟩

/-- C4: for a segment with neither `tokens` nor `words` whose trimmed text
splits into `n ≥ 1` words and whose offsets give duration `d ≥ 0`: one
caption per word; the first caption starts at the segment start; every
caption's duration is `d / n` truncated toward zero and its confidence is
0.95; and the summed durations differ from `d` by at most `n - 1`. -/
theorem segment_split_arith (seg : Segment) (txt : String) (n : ℕ) (d : ℤ)
    (htok : seg.tokens = none) (hwrd : seg.words = none)
    (htxt : seg.text = some txt)
    (hn : (pySplit (pyStrip txt)).length = n) (h1 : 1 ≤ n)
    (hd : d = seg.offsets_to.getD 0 - seg.offsets_from.getD 0) (hd0 : 0 ≤ d) :
    (segmentCaptions seg).length = n ∧
    ((segmentCaptions seg).head?.map Caption.startMs
        = some (seg.offsets_from.getD 0)) ∧
    (∀ c ∈ segmentCaptions seg,
        c.endMs - c.startMs = pyInt ((d : ℚ) / (n : ℚ)) ∧ c.confidence = conf95) ∧
    ((segmentCaptions seg).map (fun c => c.endMs - c.startMs)).sum
        = n * pyInt ((d : ℚ) / (n : ℚ)) ∧
    |d - ((segmentCaptions seg).map (fun c => c.endMs - c.startMs)).sum|
        ≤ (n : ℤ) - 1 := by
  obtain ⟨tok, wrd, tfield, ofrom, oto⟩ := seg
  obtain rfl : tok = none := htok
  obtain rfl : wrd = none := hwrd
  obtain rfl : tfield = some txt := htxt
  simp only at hd
  have htxtne : pyStrip txt ≠ "" := by
    intro hcon
    rw [hcon] at hn
    rw [show pySplit "" = ([] : List String) from rfl] at hn
    simp at hn
    omega
  have hwsne : pySplit (pyStrip txt) ≠ [] := by
    intro hcon
    rw [hcon] at hn
    simp at hn
    omega
  have hmax : max (pySplit (pyStrip txt)).length 1 = n := by
    rw [hn]
    exact max_eq_left h1
  have hdpw : ((oto.getD 0 - ofrom.getD 0 : ℤ) : ℚ)
      / ((max (pySplit (pyStrip txt)).length 1 : ℕ) : ℚ) = (d : ℚ) / (n : ℚ) := by
    rw [hmax, ← hd]
  have hunfold : segmentCaptions ⟨none, none, some txt, ofrom, oto⟩
      = splitLoop (ofrom.getD 0) ((d : ℚ) / (n : ℚ)) 0 (pySplit (pyStrip txt)) := by
    show segSplitCaptions txt ofrom oto = _
    simp only [segSplitCaptions]
    rw [if_neg htxtne, hdpw]
  have hn0 : (0 : ℤ) < (n : ℤ) := by exact_mod_cast h1
  have hD0 : (0 : ℚ) ≤ (d : ℚ) / (n : ℚ) := by
    apply div_nonneg
    · exact_mod_cast hd0
    · positivity
  have hpyD : pyInt ((d : ℚ) / (n : ℚ)) = d / (n : ℤ) := by
    rw [pyInt, if_pos hD0]
    exact_mod_cast Rat.floor_intCast_div_natCast d n
  refine ⟨?_, ?_, ?_, ?_, ?_⟩
  · rw [hunfold, splitLoop_length, hn]
  · rw [hunfold]
    obtain ⟨wd, ws, hws⟩ := List.exists_cons_of_ne_nil hwsne
    rw [hws]
    simp [splitLoop, pyInt]
  · intro c hc
    rw [hunfold] at hc
    exact ⟨(splitLoop_mem _ _ _ _ c hc).2.1, (splitLoop_mem _ _ _ _ c hc).2.2.1⟩
  · rw [hunfold, splitLoop_durations, hn, List.sum_replicate, nsmul_eq_mul]
  · rw [hunfold, splitLoop_durations, hn, List.sum_replicate, nsmul_eq_mul, hpyD]
    have hid : (n : ℤ) * (d / (n : ℤ)) + d % (n : ℤ) = d := Int.ediv_add_emod d (n : ℤ)
    have hmod1 : 0 ≤ d % (n : ℤ) := Int.emod_nonneg d (by omega)
    have hmod2 : d % (n : ℤ) < (n : ℤ) := Int.emod_lt_of_pos d hn0
    have hrw : d - (n : ℤ) * (d / (n : ℤ)) = d % (n : ℤ) := by omega
    rw [hrw, abs_of_nonneg hmod1]
    omega

/-- Witness for C4: the segment `" one two three "` over 100–110 ms yields
three captions of 3 ms each, 9 ms total, within the 2 ms tolerance. -/
theorem segment_split_arith_witness :
    (pySplit (pyStrip " one two three ")).length = 3 ∧
    (segmentCaptions ⟨none, none, some " one two three ", some 100, some 110⟩).length = 3 ∧
    ((segmentCaptions ⟨none, none, some " one two three ", some 100, some 110⟩).head?.map
        Caption.startMs = some ((some (100 : ℤ)).getD 0)) ∧
    ((segmentCaptions ⟨none, none, some " one two three ", some 100, some 110⟩).map
        (fun c => c.endMs - c.startMs)).sum = 3 * pyInt ((10 : ℚ) / (3 : ℚ)) ∧
    |10 - ((segmentCaptions ⟨none, none, some " one two three ", some 100, some 110⟩).map
        (fun c => c.endMs - c.startMs)).sum| ≤ (3 : ℤ) - 1 :=
  ⟨by decide,
   (segment_split_arith _ " one two three " 3 10 rfl rfl rfl (by decide)
       (by decide) (by decide) (by decide)).1,
   (segment_split_arith _ " one two three " 3 10 rfl rfl rfl (by decide)
       (by decide) (by decide) (by decide)).2.1,
   (segment_split_arith _ " one two three " 3 10 rfl rfl rfl (by decide)
       (by decide) (by decide) (by decide)).2.2.2.1,
   (segment_split_arith _ " one two three " 3 10 rfl rfl rfl (by decide)
       (by decide) (by decide) (by decide)).2.2.2.2⟩

end Voxa
